import Mathlib

/-!
Verification development for the beneficiary identity-resolution and
crosswalk-reconciliation subsystem of the bluebutton web server.

Embedded source files:
* `apps/fhir/server/authentication.py` — `match_backend_patient_identifier`
* `apps/mymedicare_cb/models.py` — `get_and_update_user`, `create_beneficiary_record`

The backend FHIR server is modelled as a function from (hash kind, hash) to the
JSON bundle it returns; the Django ORM store is modelled as an explicit list of
accounts (each with its 1:1 crosswalk) threaded through the functions.
-/

namespace BlueButton

/-- Which identifier hash a directory lookup uses: `M` = mbi_hash, `H` = hicn_hash.
Corresponds to the `hash_lookup_type` strings "M" and "H" in the source. -/
inductive HashKind where
  | M
  | H
deriving DecidableEq, Repr

/-- A parsed backend response bundle (`backend_data = response.json()`).
`total` is the declared bundle total (`backend_data['total']`; a well-formed
response carries an integer total-count field). `entry` is the optional entry
list (`'entry' in backend_data`), with each entry reduced to its
`entry[i]['resource']['id']` string. -/
structure FhirBundle where
  total : Int
  entry : Option (List String)
deriving DecidableEq, Repr

/-- Result of `match_backend_patient_identifier`: a successful return of
`(fhir_id, hash_lookup_type)`, a raised `UpstreamServerException` with its
message, a raised `rest_framework` `NotFound`, or a Python `IndexError`
(`entry[0]` on an empty entry list). -/
inductive LookupOutcome where
  | found (fhir_id : String) (hash_lookup_type : String)
  | upstreamError (mesg : String)
  | notFound
  | indexError
deriving DecidableEq, Repr

def dupTotalMesg : String := "Duplicate beneficiaries found in Patient resource bundle total"

def dupEntryMesg : String := "Duplicate beneficiaries found in Patient resource bundle entry"

/-- The `hash_lookup_mesg` computed in the mbi block of
`match_backend_patient_identifier` (authentication.py lines 81-91): set when
`backend_data.get('total', 0) > 1`; overwritten with the entry message when the
entry list has more than one element *and* the message was already set
(the source condition is `hash_lookup_mesg is not None`). -/
def mbi_lookup_mesg (b : FhirBundle) : Option String :=
  let mesg : Option String := if b.total > 1 then some dupTotalMesg else none
  match b.entry with
  | some es => if 1 < es.length ∧ mesg ≠ none then some dupEntryMesg else mesg
  | none => mesg

/-- The mbi block's match decision (authentication.py lines 93-105): the lookup
returns a fhir_id exactly when the bundle has an entry list, declared
`total == 1`, exactly one entry, and no duplicate message was recorded. -/
def mbi_match (b : FhirBundle) : Option String :=
  match b.entry with
  | some es =>
      if b.total = 1 ∧ es.length = 1 ∧ mbi_lookup_mesg b = none then es.head? else none
  | none => none

/-- The hicn block of `match_backend_patient_identifier` (authentication.py
lines 128-156): `total > 1` raises `UpstreamServerException`; more than one
entry raises `UpstreamServerException`; an entry list present with
`total == 1` returns `entry[0]` (an `IndexError` when the list is empty);
anything else raises `NotFound`. -/
def hicn_classify (b : FhirBundle) : LookupOutcome :=
  if b.total > 1 then .upstreamError dupTotalMesg
  else
    match b.entry with
    | some es =>
        if 1 < es.length then .upstreamError dupEntryMesg
        else if b.total = 1 then
          match es.head? with
          | some e => .found e "H"
          | none => .indexError
        else .notFound
    | none => .notFound

/-- The lookups performed (HTTP GETs issued) together with the final outcome of
one `match_backend_patient_identifier` call. -/
structure MatchTrace where
  outcome : LookupOutcome
  lookups : List HashKind
deriving DecidableEq, Repr

/-- Embedding of `match_backend_patient_identifier(mbi_hash, hicn_hash)` (authentication.py
lines 43-156). The backend server is a function from hash kind and hash to the
bundle it returns. When `mbi_hash` is not None the mbi lookup runs first and
returns on a single match; in every other case — including a duplicate mbi
bundle — control falls through to the hicn lookup. -/
def match_backend_patient_identifier (backend : HashKind → String → FhirBundle)
    (mbi_hash : Option String) (hicn_hash : String) : MatchTrace :=
  match mbi_hash with
  | some mh =>
      match mbi_match (backend .M mh) with
      | some fid => ⟨.found fid "M", [.M]⟩
      | none => ⟨hicn_classify (backend .H hicn_hash), [.M, .H]⟩
  | none => ⟨hicn_classify (backend .H hicn_hash), [.H]⟩

/-- Modelled from the spec: the §4.2 classification policy, stated as written
(`Declared total > 1, or more than one entry present → AmbiguousMatch`;
`Exactly one entry and declared total == 1 → SingleMatch(id)`; otherwise
`NoMatch`). Used only to compare the source classifier against the spec. -/
inductive SpecClass where
  | ambiguous
  | single (external_record_id : String)
  | noMatch
deriving DecidableEq, Repr

/-- Modelled from the spec: §4.2's classifier over a well-formed bundle. -/
def spec_classify (b : FhirBundle) : SpecClass :=
  if b.total > 1 ∨ 1 < (b.entry.getD []).length then .ambiguous
  else
    match b.entry with
    | some [e] => if b.total = 1 then .single e else .noMatch
    | _ => .noMatch

/-! ## Crosswalk reconciler (`apps/mymedicare_cb/models.py`) -/

/-- One Crosswalk row (apps.fhir.bluebutton.models.Crosswalk as used by the
embedded functions): the hicn hash, the nullable mbi hash, the matched backend
fhir_id, and the `user_id_type` of the last successful lookup ("M" or "H"). -/
structure CrosswalkRec where
  user_hicn_hash : String
  user_mbi_hash : Option String
  fhir_id : String
  user_id_type : String
deriving DecidableEq, Repr

/-- One Django `User` row together with its 1:1 `Crosswalk` (created together
in `create_beneficiary_record`). -/
structure Account where
  username : String
  first_name : String
  last_name : String
  email : String
  crosswalk : CrosswalkRec
deriving DecidableEq, Repr

/-- The durable store: the `User`+`Crosswalk` rows and the `UserProfile` rows
(kept as the usernames that own a 'BEN' profile). Group membership rows are
environment fixtures and are not modelled. -/
structure DB where
  accounts : List Account
  ben_profiles : List String
deriving DecidableEq, Repr

/-- Lookup `User.objects.get(username=...)` (first account with the username). -/
def DB.getUser (db : DB) (username : String) : Option Account :=
  db.accounts.find? (fun a => a.username == username)

/-- Check `User.objects.filter(username=...).exists()`. -/
def DB.usernameExists (db : DB) (u : String) : Bool :=
  db.accounts.any (fun a => a.username == u)

/-- Check `Crosswalk.objects.filter(_user_id_hash=...).exists()`. -/
def DB.hicnHashExists (db : DB) (h : String) : Bool :=
  db.accounts.any (fun a => a.crosswalk.user_hicn_hash == h)

/-- Check `Crosswalk.objects.filter(_user_mbi_hash=...).exists()`. -/
def DB.mbiHashExists (db : DB) (h : String) : Bool :=
  db.accounts.any (fun a => a.crosswalk.user_mbi_hash == some h)

/-- Check `Crosswalk.objects.filter(_fhir_id=...).exists()`. -/
def DB.fhirIdExists (db : DB) (f : String) : Bool :=
  db.accounts.any (fun a => a.crosswalk.fhir_id == f)

/-- Persist `user.crosswalk.save()`: store the account whose username matches. -/
def DB.updateUser (db : DB) (a : Account) : DB :=
  ⟨db.accounts.map (fun x => if x.username == a.username then a else x), db.ben_profiles⟩

/-- The exceptions the embedded mymedicare_cb functions can raise: Python
`AssertionError` (message empty for a bare `assert`), Django
`ValidationError`, and the propagated lookup failures of
`match_backend_patient_identifier`. -/
inductive CbError where
  | assertionError (mesg : String)
  | validationError (mesg : String)
  | upstreamError (mesg : String)
  | notFound
  | indexError
deriving DecidableEq, Repr

/-- Return-or-raise of an embedded mymedicare_cb function. -/
inductive CbOutcome where
  | ok (user : Account)
  | error (e : CbError)
deriving DecidableEq, Repr

/-- Result of `create_beneficiary_record`: the outcome, the store afterwards,
and the `log_create_beneficiary_record` messages emitted. -/
structure CreateResult where
  outcome : CbOutcome
  db : DB
  logs : List String
deriving DecidableEq, Repr

/-- The "Pre logging for asserts" block of `create_beneficiary_record`
(models.py lines 154-182): one message per violated precondition, all emitted
before the asserts run. -/
def create_precondition_logs (username user_hicn_hash user_mbi_hash fhir_id :
    Option String) : List String :=
  (if username = none then ["username can not be None"] else []) ++
  (if username = some "" then ["username can not be an empty string"] else []) ++
  (match user_hicn_hash with
   | none => ["user_hicn_hash can not be None"]
   | some h => if h.length ≠ 64 then ["incorrect user HICN hash format"] else []) ++
  (match user_mbi_hash with
   | some h => if h.length ≠ 64 then ["incorrect user MBI hash format"] else []
   | none => []) ++
  (if fhir_id = none then ["fhir_id can not be None"] else []) ++
  (if fhir_id = some "" then ["fhir_id can not be an empty string"] else [])

/-- Embedding of `create_beneficiary_record` (models.py lines 145-235). The pre-logging
block (lines 154-182) emits one message per violated precondition; the asserts
(lines 184-192) then raise on the first violation, before any store write; the
uniqueness checks (lines 194-214) raise `ValidationError` naming the colliding
field; finally the `User`, `Crosswalk` and `UserProfile` rows are created in
one transaction. -/
def create_beneficiary_record (db : DB) (username : Option String)
    (user_hicn_hash : Option String) (user_mbi_hash : Option String)
    (fhir_id : Option String) (first_name last_name email : String)
    (user_id_type : String) : CreateResult :=
  -- Pre logging for asserts.
  let logs : List String :=
    create_precondition_logs username user_hicn_hash user_mbi_hash fhir_id
  match username, user_hicn_hash, fhir_id with
  | none, _, _ => ⟨.error (.assertionError ""), db, logs⟩
  | some u, hh, fi =>
    if u = "" then ⟨.error (.assertionError ""), db, logs⟩
    else
      match hh with
      | none => ⟨.error (.assertionError ""), db, logs⟩
      | some h =>
        if h.length ≠ 64 then ⟨.error (.assertionError "incorrect user HICN hash format"), db, logs⟩
        else if (match user_mbi_hash with | some m => m.length != 64 | none => false) then
          ⟨.error (.assertionError "incorrect user MBI hash format"), db, logs⟩
        else
          match fi with
          | none => ⟨.error (.assertionError ""), db, logs⟩
          | some f =>
            if f = "" then ⟨.error (.assertionError ""), db, logs⟩
            else if db.usernameExists u then
              ⟨.error (.validationError "user already exists"), db, logs ++ ["user already exists"]⟩
            else if db.hicnHashExists h then
              ⟨.error (.validationError "user_hicn_hash already exists"), db,
                logs ++ ["user_hicn_hash already exists"]⟩
            else if (match user_mbi_hash with | some m => db.mbiHashExists m | none => false) then
              ⟨.error (.validationError "user_mbi_hash already exists"), db,
                logs ++ ["user_mbi_hash already exists"]⟩
            else if (f != "") && db.fhirIdExists f then
              ⟨.error (.validationError "fhir_id already exists"), db,
                logs ++ ["fhir_id already exists"]⟩
            else
              let user : Account := ⟨u, first_name, last_name, email,
                ⟨h, user_mbi_hash, f, user_id_type⟩⟩
              ⟨.ok user, ⟨db.accounts ++ [user], db.ben_profiles ++ [u]⟩, logs⟩

/-- The identity response fields of `user_info` that `get_and_update_user`
reads: `sub`, `hicn` and `mbi` are accessed with `user_info[...]` (required;
a missing key would be a `KeyError`, so they are total fields here), while
`given_name`, `family_name` and `email` are accessed with
`user_info.get(..., "")` and so are optional. -/
structure UserInfo where
  sub : String
  hicn : String
  mbi : String
  given_name : Option String
  family_name : Option String
  email : Option String
deriving DecidableEq, Repr

/-- Python `str.upper()` as a structural character-wise map (the raw mbi is
alphanumeric ASCII, where this agrees with Python). -/
def pyUpper (s : String) : String := ⟨s.data.map Char.toUpper⟩

/-- The mbi normalization of `get_and_update_user` (models.py lines 71-76):
upper-case the raw mbi, then map the empty string to None. -/
def normalized_mbi (ui : UserInfo) : Option String :=
  let mbi := pyUpper ui.mbi
  if mbi = "" then none else some mbi

/-- Hashing step `mbi_hash = hash_mbi(mbi)` (models.py line 80). Modelled from the spec:
`hash_mbi` lives in `apps.fhir.bluebutton.models`, which is not in src; per
§4.1 the digest is an abstract deterministic function and an absent (None)
identifier stays None rather than being hashed. -/
def mbi_hash_of (hash_mbi : String → String) (ui : UserInfo) : Option String :=
  (normalized_mbi ui).map hash_mbi

/-- Result of `get_and_update_user`: outcome, the store afterwards, the log
messages emitted (`mesg` fields of `log_get_and_update_user` and of
`log_create_beneficiary_record`), the number of `user.crosswalk.save()` calls
on the existing-account path, and the backend lookups performed. -/
structure GUUResult where
  outcome : CbOutcome
  db : DB
  logs : List String
  saves : Nat
  lookups : List HashKind
deriving DecidableEq, Repr

/-- Tail of the existing-account path of `get_and_update_user` (models.py
lines 113-122): update `user_id_type` (with one more `save()`) when it changed
from the lookup type just used, then log and return the existing record. -/
def finish_existing (db : DB) (user : Account) (hash_lookup_type : String)
    (logs : List String) (saves : Nat) (lookups : List HashKind) : GUUResult :=
  if user.crosswalk.user_id_type ≠ hash_lookup_type then
    let user2 : Account :=
      {user with crosswalk := {user.crosswalk with user_id_type := hash_lookup_type}}
    ⟨.ok user2, db.updateUser user2,
      logs ++ ["UPDATE user_id_type as it has changed from the previous lookup value",
               "RETURN existing beneficiary record"], saves + 1, lookups⟩
  else
    ⟨.ok user, db, logs ++ ["RETURN existing beneficiary record"], saves, lookups⟩

/-- The existing-account branch of `get_and_update_user` (models.py lines
85-122): log the hicn-hash and fhir_id mismatches, then assert both equal;
assert the mbi hash equal when a stored value exists, or backfill it (one
`save()`) when the stored value is None; finally reach the `user_id_type`
update and return. -/
def existing_user_step (db : DB) (user : Account) (hicn_hash : String)
    (mbi_hash : Option String) (fhir_id hash_lookup_type : String)
    (lookups : List HashKind) : GUUResult :=
  -- Log pre asserts.
  let logs : List String :=
    (if user.crosswalk.user_hicn_hash ≠ hicn_hash
     then ["Found user\x27s hicn did not match"] else []) ++
    (if user.crosswalk.fhir_id ≠ fhir_id
     then ["Found user\x27s fhir_id did not match"] else [])
  if user.crosswalk.user_hicn_hash ≠ hicn_hash then
    ⟨.error (.assertionError "Found user\x27s hicn did not match"), db, logs, 0, lookups⟩
  else if user.crosswalk.fhir_id ≠ fhir_id then
    ⟨.error (.assertionError "Found user\x27s fhir_id did not match"), db, logs, 0, lookups⟩
  else
    match user.crosswalk.user_mbi_hash with
    | some stored =>
      if some stored ≠ mbi_hash then
        ⟨.error (.assertionError "Found user\x27s mbi did not match"), db,
          logs ++ ["Found user\x27s mbi did not match"], 0, lookups⟩
      else
        finish_existing db user hash_lookup_type logs 0 lookups
    | none =>
      -- Previously stored value was None/Null, so update just the mbi hash.
      let user1 : Account :=
        {user with crosswalk := {user.crosswalk with user_mbi_hash := mbi_hash}}
      finish_existing (db.updateUser user1) user1 hash_lookup_type
        (logs ++ ["UPDATE mbi_hash since previous value was NULL"]) 1 lookups

/-- Embedding of `get_and_update_user(user_info)` (models.py lines 53-141). `hash_hicn` and
`hash_mbi` (not in src, see `mbi_hash_of`) are abstract digest parameters and
the backend server is a function argument, as in
`match_backend_patient_identifier`. Lookup failures propagate; for a found
user the hicn hash and fhir_id are logged and then asserted equal, the mbi
hash is asserted equal when a stored value exists and backfilled (with a
`save()`) when the stored value is None; otherwise a new beneficiary record is
created. -/
def get_and_update_user (hash_hicn hash_mbi : String → String)
    (backend : HashKind → String → FhirBundle) (db : DB)
    (user_info : UserInfo) : GUUResult :=
  let subject := user_info.sub
  let hicn_hash := hash_hicn user_info.hicn
  let mbi_hash := mbi_hash_of hash_mbi user_info
  let t := match_backend_patient_identifier backend mbi_hash hicn_hash
  match t.outcome with
  | .upstreamError m => ⟨.error (.upstreamError m), db, [], 0, t.lookups⟩
  | .notFound => ⟨.error .notFound, db, [], 0, t.lookups⟩
  | .indexError => ⟨.error .indexError, db, [], 0, t.lookups⟩
  | .found fhir_id hash_lookup_type =>
    match db.getUser subject with
    | some user =>
      existing_user_step db user hicn_hash mbi_hash fhir_id hash_lookup_type t.lookups
    | none =>
      let r := create_beneficiary_record db (some subject) (some hicn_hash) mbi_hash
        (some fhir_id) (user_info.given_name.getD "") (user_info.family_name.getD "")
        (user_info.email.getD "") hash_lookup_type
      match r.outcome with
      | .ok user => ⟨.ok user, r.db, r.logs ++ ["CREATE beneficiary record"], 0, t.lookups⟩
      | .error e => ⟨.error e, r.db, r.logs, 0, t.lookups⟩


/-! ## Concrete fixtures and auxiliary predicates used by the theorems -/

/-- A backend whose mbi lookup returns an ambiguous bundle (declared total 2,
two entries) and whose hicn lookup returns a well-formed empty bundle. -/
def exBackendC1 : HashKind → String → FhirBundle := fun k _ =>
  match k with
  | .M => ⟨2, some ["a", "b"]⟩
  | .H => ⟨0, none⟩

/-- A backend whose mbi lookup returns two entries with declared total 1
(ambiguous per the spec policy) and whose hicn lookup returns a clean single
match. -/
def exBackendC3 : HashKind → String → FhirBundle := fun k _ =>
  match k with
  | .M => ⟨1, some ["a", "b"]⟩
  | .H => ⟨1, some ["c"]⟩

/-- A constant digest stand-in used to instantiate the abstract hash
parameters on concrete inputs. -/
def hashConst (h : String) : String → String := fun _ => h

/-- A backend returning a clean single match with id `f1` on every lookup. -/
def exBackendSingle : HashKind → String → FhirBundle := fun _ _ => ⟨1, some ["f1"]⟩

/-- An identity response with subject `sub1` and an empty mbi. -/
def exUiNoMbi : UserInfo := ⟨"sub1", "h", "", none, none, none⟩

/-- An identity response with subject `sub1` and raw mbi `1a` (upper-cased to
`1A` before hashing). -/
def exUiWithMbi : UserInfo := ⟨"sub1", "h", "1a", none, none, none⟩

/-- An account for subject `sub1` with stored hicn hash `HH1`, fhir_id `f1`,
lookup type `H` and the given stored mbi hash. -/
def exAcctWith (mbi : Option String) : Account :=
  ⟨"sub1", "", "", "", ⟨"HH1", mbi, "f1", "H"⟩⟩

/-- A store holding exactly the `sub1` account. -/
def exDbWith (mbi : Option String) : DB := ⟨[exAcctWith mbi], []⟩

/-- A 64-character hash constant used to witness the creation path. -/
def h64 : String :=
  "aaaaaaaaaaaaaaaaaaaaaaaaaaaaaaaaaaaaaaaaaaaaaaaaaaaaaaaaaaaaaaaa"

/-- The disjunction of the precondition violations that
`create_beneficiary_record` asserts against (models.py lines 184-192). -/
def create_precondition_violated (username user_hicn_hash user_mbi_hash fhir_id :
    Option String) : Bool :=
  (username == none) || (username == some "") ||
  (match user_hicn_hash with | none => true | some s => s.length != 64) ||
  (match user_mbi_hash with | some m => m.length != 64 | none => false) ||
  (fhir_id == none) || (fhir_id == some "")

/-! ## Helper lemmas -/

/-- A bundle that is ambiguous in the §4.2 sense (declared total above one, or
more than one entry) never yields an mbi match: the single-match test requires
declared total equal to one and exactly one entry. -/
theorem mbi_match_eq_none_of_ambiguous (b : FhirBundle)
    (h : b.total > 1 ∨ 1 < (b.entry.getD []).length) : mbi_match b = none := by
  unfold mbi_match
  cases hb : b.entry with
  | none => rfl
  | some es =>
    dsimp only
    rw [if_neg]
    rintro ⟨h1, h2, -⟩
    rcases h with h | h
    · omega
    · rw [hb] at h
      simp only [Option.getD_some] at h
      omega

/-- The function `mbi_match` returns an id exactly on a singleton entry list with declared
total equal to one. -/
theorem mbi_match_eq_some_iff (b : FhirBundle) (e : String) :
    mbi_match b = some e ↔ b.entry = some [e] ∧ b.total = 1 := by
  unfold mbi_match
  cases hb : b.entry with
  | none => simp
  | some es =>
    dsimp only
    constructor
    · intro h
      split at h
      · rename_i hc
        obtain ⟨ht, hlen, -⟩ := hc
        cases es with
        | nil => simp at hlen
        | cons x xs =>
          cases xs with
          | nil =>
            simp only [List.head?_cons] at h
            cases h
            exact ⟨rfl, ht⟩
          | cons y ys => simp at hlen
      · simp at h
    · rintro ⟨hes, ht⟩
      have hmesg : mbi_lookup_mesg b = none := by
        unfold mbi_lookup_mesg
        rw [hb]
        simp [ht]
      injection hes with hes
      subst hes
      simp [ht, hmesg]

/-- The classifier `spec_classify` yields a single match exactly on a singleton entry list
with declared total equal to one. -/
theorem spec_classify_eq_single_iff (b : FhirBundle) (e : String) :
    spec_classify b = SpecClass.single e ↔ b.entry = some [e] ∧ b.total = 1 := by
  unfold spec_classify
  constructor
  · intro h
    split at h
    · cases h
    · split at h
      · rename_i es hes
        split at h
        · cases h
          rename_i ht
          exact ⟨hes, ht⟩
        · cases h
      · cases h
  · rintro ⟨hes, ht⟩
    rw [if_neg, hes]
    · simp [ht]
    · rw [hes, ht]
      simp

/-- The classifier `spec_classify` yields an ambiguous match exactly when the declared total
is above one or more than one entry is present. -/
theorem spec_classify_eq_ambiguous_iff (b : FhirBundle) :
    spec_classify b = SpecClass.ambiguous ↔
      b.total > 1 ∨ 1 < (b.entry.getD []).length := by
  unfold spec_classify
  constructor
  · intro h
    by_contra hc
    rw [if_neg hc] at h
    split at h <;> first
      | cases h
      | (split at h <;> cases h)
  · intro h
    rw [if_pos h]

/-! ## Claim C1 -/


/-- C1: the claim is false on the code. With the mbi lookup returning an
ambiguous bundle (total 2, two entries), `match_backend_patient_identifier`
does not fail with the ambiguous-identity error: it falls through to the hicn
lookup (the fallback lookup IS performed, `lookups = [M, H]`) and here ends in
`NotFound`, not in `UpstreamServerException`. -/
theorem C1_counterexample :
    (exBackendC1 HashKind.M "x").total > 1 ∧
    1 < ((exBackendC1 HashKind.M "x").entry.getD []).length ∧
    match_backend_patient_identifier exBackendC1 (some "x") "y" =
      ⟨LookupOutcome.notFound, [HashKind.M, HashKind.H]⟩ := by
  refine ⟨by decide, by decide, ?_⟩
  rfl

/-- C1 amended: an ambiguous mbi lookup (declared total above one, or more
than one entry) does not short-circuit; the hicn fallback lookup is always
performed and the whole resolution is decided by the hicn classification. -/
theorem C1_amended (backend : HashKind → String → FhirBundle)
    (mh hicn_hash : String)
    (hamb : (backend HashKind.M mh).total > 1 ∨
      1 < ((backend HashKind.M mh).entry.getD []).length) :
    match_backend_patient_identifier backend (some mh) hicn_hash =
      ⟨hicn_classify (backend HashKind.H hicn_hash), [HashKind.M, HashKind.H]⟩ := by
  unfold match_backend_patient_identifier
  dsimp only
  rw [mbi_match_eq_none_of_ambiguous _ hamb]

/-- C1 amended, witnessed at the concrete ambiguous backend. -/
theorem C1_amended_witness :
    match_backend_patient_identifier exBackendC1 (some "x") "y" =
      ⟨hicn_classify (exBackendC1 HashKind.H "y"), [HashKind.M, HashKind.H]⟩ :=
  C1_amended exBackendC1 "x" "y" (Or.inl (by decide))

/-! ## Claim C3 -/


/-- C3: the claim is false on the code. The mbi response carries more than one
entry, so per the spec policy it must be classified as an ambiguous match; the
code instead records no duplicate message for it (`mbi_lookup_mesg = none`,
because the entry-count message is only set when the total check already
fired) and falls through to the hicn lookup, where the resolution succeeds. -/
theorem C3_counterexample :
    spec_classify (exBackendC3 HashKind.M "x") = SpecClass.ambiguous ∧
    mbi_lookup_mesg (exBackendC3 HashKind.M "x") = none ∧
    match_backend_patient_identifier exBackendC3 (some "x") "y" =
      ⟨LookupOutcome.found "c" "H", [HashKind.M, HashKind.H]⟩ := by
  refine ⟨by decide, by decide, ?_⟩
  rfl

/-- C3 amended: the hicn path classifies per the spec policy (ambiguous →
`UpstreamServerException` with one of the two duplicate messages; single match
→ that entry id; no match → `NotFound`, except that an empty entry list
present together with declared total 1 hits an `IndexError` instead), whereas
the mbi path classifies a response as a single match under exactly the spec
condition but treats every other response — ambiguous included — as no match
and falls through. -/
theorem C3_amended (b : FhirBundle) :
    (∀ e, mbi_match b = some e ↔ spec_classify b = SpecClass.single e) ∧
    (∀ e, spec_classify b = SpecClass.single e →
      hicn_classify b = LookupOutcome.found e "H") ∧
    (spec_classify b = SpecClass.ambiguous →
      hicn_classify b = LookupOutcome.upstreamError dupTotalMesg ∨
      hicn_classify b = LookupOutcome.upstreamError dupEntryMesg) ∧
    (spec_classify b = SpecClass.noMatch →
      if b.entry = some [] ∧ b.total = 1
      then hicn_classify b = LookupOutcome.indexError
      else hicn_classify b = LookupOutcome.notFound) := by
  refine ⟨?_, ?_, ?_, ?_⟩
  · intro e
    exact (mbi_match_eq_some_iff b e).trans (spec_classify_eq_single_iff b e).symm
  · intro e hs
    obtain ⟨hb, ht⟩ := (spec_classify_eq_single_iff b e).mp hs
    unfold hicn_classify
    rw [if_neg (by omega), hb]
    simp [ht]
  · intro ha
    by_cases ht : b.total > 1
    · left
      unfold hicn_classify
      rw [if_pos ht]
    · right
      rcases (spec_classify_eq_ambiguous_iff b).mp ha with ht2 | hl
      · omega
      · cases hb : b.entry with
        | none =>
          rw [hb] at hl
          simp at hl
        | some es =>
          rw [hb] at hl
          simp only [Option.getD_some] at hl
          unfold hicn_classify
          rw [if_neg ht, hb]
          simp [hl]
  · intro h
    have hna : ¬(b.total > 1 ∨ 1 < (b.entry.getD []).length) := by
      intro hc
      rw [(spec_classify_eq_ambiguous_iff b).mpr hc] at h
      cases h
    push_neg at hna
    obtain ⟨ht1, hlen⟩ := hna
    cases hb : b.entry with
    | none =>
      rw [if_neg (by simp)]
      unfold hicn_classify
      rw [if_neg (by omega), hb]
    | some es =>
      match es with
      | [] =>
        by_cases ht : b.total = 1
        · rw [if_pos ⟨rfl, ht⟩]
          unfold hicn_classify
          rw [if_neg (by omega), hb]
          simp [ht]
        · rw [if_neg (by simp [ht])]
          unfold hicn_classify
          rw [if_neg (by omega), hb]
          simp [ht]
      | [e] =>
        have ht : b.total ≠ 1 := by
          intro ht
          rw [(spec_classify_eq_single_iff b e).mpr ⟨hb, ht⟩] at h
          cases h
        rw [if_neg (by simp)]
        unfold hicn_classify
        rw [if_neg (by omega), hb]
        simp [ht]
      | e :: f :: rest =>
        rw [hb] at hlen
        simp at hlen

/-- C3 amended, witnessed: the hicn classifier maps the concrete single-match
bundle to its entry id. -/
theorem C3_amended_witness :
    hicn_classify ⟨1, some ["c"]⟩ = LookupOutcome.found "c" "H" :=
  (C3_amended ⟨1, some ["c"]⟩).2.1 "c" (by decide)

/-- When the backend match succeeds and an account exists for the subject,
`get_and_update_user` runs the existing-account branch on that account. -/
theorem guu_existing (hh hm : String → String) (be : HashKind → String → FhirBundle)
    (db : DB) (ui : UserInfo) (a : Account) (fid lt : String)
    (hfind : db.getUser ui.sub = some a)
    (hmatch : (match_backend_patient_identifier be (mbi_hash_of hm ui) (hh ui.hicn)).outcome =
      LookupOutcome.found fid lt) :
    get_and_update_user hh hm be db ui =
      existing_user_step db a (hh ui.hicn) (mbi_hash_of hm ui) fid lt
        (match_backend_patient_identifier be (mbi_hash_of hm ui) (hh ui.hicn)).lookups := by
  unfold get_and_update_user
  dsimp only
  rw [hmatch, hfind]

/-- Persisting an account carrying the username under which `a` was found
makes a subsequent `getUser` for that username return the persisted account. -/
theorem getUser_updateUser (db : DB) (u : String) (a a2 : Account)
    (hfind : db.getUser u = some a) (hname : a2.username = a.username) :
    (db.updateUser a2).getUser u = some a2 := by
  obtain ⟨accounts, ben⟩ := db
  unfold DB.getUser DB.updateUser at *
  dsimp only at *
  induction accounts with
  | nil => simp at hfind
  | cons x xs ih =>
    simp only [List.map_cons]
    by_cases hx : (x.username == u) = true
    · simp only [List.find?, hx] at hfind
      injection hfind with hfind
      subst hfind
      rw [if_pos (by rw [hname]; exact beq_self_eq_true x.username)]
      have ha2 : (a2.username == u) = true := by
        rw [hname]
        exact hx
      simp only [List.find?, ha2]
    · have hx2 : (x.username == u) = false := Bool.eq_false_iff.mpr hx
      simp only [List.find?, hx2] at hfind
      have ha : (a.username == u) = true :=
        List.find?_some (p := fun y : Account => y.username == u) hfind
      have hcond : ¬((x.username == a2.username) = true) := by
        intro hc
        apply hx
        rw [eq_of_beq hc, hname, eq_of_beq ha]
        exact beq_self_eq_true u
      rw [if_neg hcond]
      simp only [List.find?, hx2]
      exact ih hfind

/-- Persisting an account equal to every same-username row leaves the store
unchanged. -/
theorem updateUser_self (db : DB) (a : Account)
    (h : ∀ x ∈ db.accounts, x.username = a.username → x = a) :
    db.updateUser a = db := by
  obtain ⟨accounts, ben⟩ := db
  unfold DB.updateUser
  dsimp only at *
  congr 1
  induction accounts with
  | nil => rfl
  | cons x xs ih =>
    simp only [List.map_cons]
    congr 1
    · by_cases hx : (x.username == a.username) = true
      · rw [if_pos hx]
        exact (h x (by simp) (eq_of_beq hx)).symm
      · rw [if_neg hx]
    · exact ih (fun y hy hxy => h y (by simp [hy]) hxy)


/-! ## Claim C2 -/

/-- C2: the claim is false on the code. With the stored hicn hash `HH1` and a
freshly computed hicn hash `HH2`, `get_and_update_user` logs the anomaly and
then fails with `AssertionError` — the existing account is NOT returned. -/
theorem C2_counterexample :
    (get_and_update_user (hashConst "HH2") id exBackendSingle (exDbWith none)
      exUiNoMbi).outcome =
      CbOutcome.error (CbError.assertionError "Found user\x27s hicn did not match") ∧
    (get_and_update_user (hashConst "HH2") id exBackendSingle (exDbWith none)
      exUiNoMbi).logs = ["Found user\x27s hicn did not match"] := by
  exact ⟨by decide, by decide⟩

/-- C2 amended: on an existing account, a stored-vs-fresh hicn hash mismatch,
or (with matching hicn) a stored-vs-resolved fhir_id mismatch, is logged as an
anomaly AND then fails the reconciliation with the corresponding
`AssertionError`; no store write happens and no account is returned. -/
theorem C2_amended (hh hm : String → String) (be : HashKind → String → FhirBundle)
    (db : DB) (ui : UserInfo) (a : Account) (fid lt : String)
    (hfind : db.getUser ui.sub = some a)
    (hmatch : (match_backend_patient_identifier be (mbi_hash_of hm ui) (hh ui.hicn)).outcome =
      LookupOutcome.found fid lt) :
    (a.crosswalk.user_hicn_hash ≠ hh ui.hicn →
      (get_and_update_user hh hm be db ui).outcome =
        CbOutcome.error (CbError.assertionError "Found user\x27s hicn did not match") ∧
      "Found user\x27s hicn did not match" ∈ (get_and_update_user hh hm be db ui).logs ∧
      (get_and_update_user hh hm be db ui).db = db) ∧
    (a.crosswalk.user_hicn_hash = hh ui.hicn → a.crosswalk.fhir_id ≠ fid →
      (get_and_update_user hh hm be db ui).outcome =
        CbOutcome.error (CbError.assertionError "Found user\x27s fhir_id did not match") ∧
      "Found user\x27s fhir_id did not match" ∈ (get_and_update_user hh hm be db ui).logs ∧
      (get_and_update_user hh hm be db ui).db = db) := by
  rw [guu_existing hh hm be db ui a fid lt hfind hmatch]
  constructor
  · intro hne
    unfold existing_user_step
    dsimp only
    rw [if_pos hne]
    exact ⟨rfl, by simp [hne], rfl⟩
  · intro heq hnef
    unfold existing_user_step
    dsimp only
    rw [if_neg (by simp [heq]), if_pos hnef]
    exact ⟨rfl, by simp [heq, hnef], rfl⟩

/-- C2 amended, witnessed at the concrete mismatching store. -/
theorem C2_amended_witness :
    (get_and_update_user (hashConst "HH2") id exBackendSingle (exDbWith none)
      exUiNoMbi).outcome =
      CbOutcome.error (CbError.assertionError "Found user\x27s hicn did not match") :=
  ((C2_amended (hashConst "HH2") id exBackendSingle (exDbWith none) exUiNoMbi
    (exAcctWith none) "f1" "H" (by decide) (by decide)).1 (by decide)).1

/-! ## Claim C7 -/

/-- C7: the claim is false on the code. With a stored mbi hash `MM` and a
fresh resolution yielding no mbi hash (empty mbi), the stored crosswalk is
indeed left unmodified — but the reconciliation does not proceed: it logs the
mbi mismatch and fails with `AssertionError` instead of returning the
account. -/
theorem C7_counterexample :
    (get_and_update_user (hashConst "HH1") id exBackendSingle (exDbWith (some "MM"))
      exUiNoMbi).outcome =
      CbOutcome.error (CbError.assertionError "Found user\x27s mbi did not match") ∧
    (get_and_update_user (hashConst "HH1") id exBackendSingle (exDbWith (some "MM"))
      exUiNoMbi).db = exDbWith (some "MM") := by
  exact ⟨by decide, by decide⟩

/-- C7 amended: when the stored mbi hash is non-null and the freshly resolved
one is null, no store write happens (the crosswalk is unmodified, zero
saves) but the reconciliation fails with the mbi-mismatch `AssertionError`
rather than returning the account. -/
theorem C7_amended (hh hm : String → String) (be : HashKind → String → FhirBundle)
    (db : DB) (ui : UserInfo) (a : Account) (fid lt m : String)
    (hfind : db.getUser ui.sub = some a)
    (hmatch : (match_backend_patient_identifier be (mbi_hash_of hm ui) (hh ui.hicn)).outcome =
      LookupOutcome.found fid lt)
    (hhicn : a.crosswalk.user_hicn_hash = hh ui.hicn)
    (hfhir : a.crosswalk.fhir_id = fid)
    (hstored : a.crosswalk.user_mbi_hash = some m)
    (hnone : mbi_hash_of hm ui = none) :
    (get_and_update_user hh hm be db ui).outcome =
      CbOutcome.error (CbError.assertionError "Found user\x27s mbi did not match") ∧
    "Found user\x27s mbi did not match" ∈ (get_and_update_user hh hm be db ui).logs ∧
    (get_and_update_user hh hm be db ui).db = db ∧
    (get_and_update_user hh hm be db ui).saves = 0 := by
  rw [guu_existing hh hm be db ui a fid lt hfind hmatch]
  unfold existing_user_step
  dsimp only
  rw [hhicn, hfhir, hstored, hnone]
  simp

/-- C7 amended, witnessed on the concrete store with stored mbi hash `MM` and
an empty incoming mbi. -/
theorem C7_amended_witness :
    (get_and_update_user (hashConst "HH1") id exBackendSingle (exDbWith (some "MM"))
      exUiNoMbi).outcome =
      CbOutcome.error (CbError.assertionError "Found user\x27s mbi did not match") ∧
    (get_and_update_user (hashConst "HH1") id exBackendSingle (exDbWith (some "MM"))
      exUiNoMbi).saves = 0 :=
  have h := C7_amended (hashConst "HH1") id exBackendSingle (exDbWith (some "MM"))
    exUiNoMbi (exAcctWith (some "MM")) "f1" "H" "MM" (by decide) (by decide)
    (by decide) (by decide) (by decide) (by decide)
  ⟨h.1, h.2.2.2⟩

/-! ## Claim C5 -/

/-- On an existing account fully consistent with the fresh resolution (hicn
hash, fhir_id and lookup type unchanged, stored mbi hash equal to the incoming
one — which covers the case where both are None), the existing-account branch
returns the account with the store unchanged; it still executes one redundant
`crosswalk.save()` when the stored mbi hash is None. -/
theorem existing_user_step_consistent (db : DB) (a : Account) (hicn_hash : String)
    (mbi_hash : Option String) (fid lt : String) (L : List HashKind)
    (hhicn : a.crosswalk.user_hicn_hash = hicn_hash)
    (hfhir : a.crosswalk.fhir_id = fid)
    (huid : a.crosswalk.user_id_type = lt)
    (hmbi : a.crosswalk.user_mbi_hash = mbi_hash)
    (hunique : ∀ x ∈ db.accounts, x.username = a.username → x = a) :
    existing_user_step db a hicn_hash mbi_hash fid lt L =
      ⟨.ok a, db,
        (if a.crosswalk.user_mbi_hash = none
         then ["UPDATE mbi_hash since previous value was NULL"] else []) ++
          ["RETURN existing beneficiary record"],
        (if a.crosswalk.user_mbi_hash = none then 1 else 0), L⟩ := by
  unfold existing_user_step
  dsimp only
  rw [hhicn, hfhir]
  cases hm0 : a.crosswalk.user_mbi_hash with
  | some m =>
    have hms : mbi_hash = some m := hmbi.symm.trans hm0
    subst hms
    unfold finish_existing
    rw [huid]
    simp
  | none =>
    have hmn : mbi_hash = none := hmbi.symm.trans hm0
    subst hmn
    have huser1 : ({ username := a.username, first_name := a.first_name,
                     last_name := a.last_name, email := a.email,
                     crosswalk := { user_hicn_hash := hicn_hash, user_mbi_hash := none,
                                    fhir_id := fid,
                                    user_id_type := a.crosswalk.user_id_type } } : Account) = a := by
      rw [← hhicn, ← hfhir, ← hm0]
    rw [huser1, updateUser_self db a hunique]
    unfold finish_existing
    rw [huid]
    simp

/-- C5: the claim is false on the code. Reconciling an already-consistent
account whose stored mbi hash and incoming mbi hash are both null returns the
same account with the store value-unchanged, but it does NOT perform zero
writes: the code takes the backfill branch and executes one
`crosswalk.save()` (`saves = 1`), and it does so again on every repeat. -/
theorem C5_counterexample :
    (get_and_update_user (hashConst "HH1") id exBackendSingle (exDbWith none)
      exUiNoMbi).saves = 1 ∧
    (get_and_update_user (hashConst "HH1") id exBackendSingle (exDbWith none)
      exUiNoMbi).outcome = CbOutcome.ok (exAcctWith none) ∧
    (get_and_update_user (hashConst "HH1") id exBackendSingle (exDbWith none)
      exUiNoMbi).db = exDbWith none := by
  exact ⟨by decide, by decide, by decide⟩

/-- C5 amended: reconciling an existing, fully consistent subject returns the
same account with the store unchanged, so a second identical reconciliation
returns the same result; the second run performs no crosswalk save when the
stored mbi hash is non-null, but performs one redundant save (of unchanged
values) when both the stored and the incoming mbi hash are null. -/
theorem C5_amended (hh hm : String → String) (be : HashKind → String → FhirBundle)
    (db : DB) (ui : UserInfo) (a : Account) (fid lt : String)
    (hfind : db.getUser ui.sub = some a)
    (hmatch : (match_backend_patient_identifier be (mbi_hash_of hm ui) (hh ui.hicn)).outcome =
      LookupOutcome.found fid lt)
    (hhicn : a.crosswalk.user_hicn_hash = hh ui.hicn)
    (hfhir : a.crosswalk.fhir_id = fid)
    (huid : a.crosswalk.user_id_type = lt)
    (hmbi : a.crosswalk.user_mbi_hash = mbi_hash_of hm ui)
    (hunique : ∀ x ∈ db.accounts, x.username = a.username → x = a) :
    (get_and_update_user hh hm be db ui).outcome = CbOutcome.ok a ∧
    (get_and_update_user hh hm be db ui).db = db ∧
    (get_and_update_user hh hm be db ui).saves =
      (if a.crosswalk.user_mbi_hash = none then 1 else 0) ∧
    get_and_update_user hh hm be (get_and_update_user hh hm be db ui).db ui =
      get_and_update_user hh hm be db ui := by
  have hred := guu_existing hh hm be db ui a fid lt hfind hmatch
  have hstep := existing_user_step_consistent db a (hh ui.hicn) (mbi_hash_of hm ui) fid lt
    (match_backend_patient_identifier be (mbi_hash_of hm ui) (hh ui.hicn)).lookups
    hhicn hfhir huid hmbi hunique
  have hval : get_and_update_user hh hm be db ui =
      ⟨.ok a, db,
        (if a.crosswalk.user_mbi_hash = none
         then ["UPDATE mbi_hash since previous value was NULL"] else []) ++
          ["RETURN existing beneficiary record"],
        (if a.crosswalk.user_mbi_hash = none then 1 else 0),
        (match_backend_patient_identifier be (mbi_hash_of hm ui) (hh ui.hicn)).lookups⟩ :=
    hred.trans hstep
  refine ⟨by rw [hval], by rw [hval], by rw [hval], ?_⟩
  have hdb : (get_and_update_user hh hm be db ui).db = db := by rw [hval]
  rw [hdb]

/-- C5 amended, witnessed at the concrete consistent store with both mbi
hashes null. -/
theorem C5_amended_witness :
    (get_and_update_user (hashConst "HH1") id exBackendSingle (exDbWith none)
      exUiNoMbi).outcome = CbOutcome.ok (exAcctWith none) ∧
    (get_and_update_user (hashConst "HH1") id exBackendSingle (exDbWith none)
      exUiNoMbi).db = exDbWith none ∧
    (get_and_update_user (hashConst "HH1") id exBackendSingle (exDbWith none)
      exUiNoMbi).saves = 1 :=
  have h := C5_amended (hashConst "HH1") id exBackendSingle (exDbWith none) exUiNoMbi
    (exAcctWith none) "f1" "H" (by decide) (by decide) (by decide) (by decide)
    (by decide) (by decide) (by decide)
  ⟨h.1, h.2.1, by rw [h.2.2.1]; decide⟩

/-! ## Claim C6 -/

/-- C6: when an existing account has no stored mbi hash and the fresh
resolution carries one, `get_and_update_user` backfills the crosswalk, saves
it, and the returned account — also as re-read from the store — carries the
new mbi hash. -/
theorem C6_backfill (hh hm : String → String) (be : HashKind → String → FhirBundle)
    (db : DB) (ui : UserInfo) (a : Account) (fid lt mh : String)
    (hfind : db.getUser ui.sub = some a)
    (hmatch : (match_backend_patient_identifier be (mbi_hash_of hm ui) (hh ui.hicn)).outcome =
      LookupOutcome.found fid lt)
    (hhicn : a.crosswalk.user_hicn_hash = hh ui.hicn)
    (hfhir : a.crosswalk.fhir_id = fid)
    (hstored : a.crosswalk.user_mbi_hash = none)
    (hnew : mbi_hash_of hm ui = some mh) :
    ∃ u, (get_and_update_user hh hm be db ui).outcome = CbOutcome.ok u ∧
      u.crosswalk.user_mbi_hash = some mh ∧
      (get_and_update_user hh hm be db ui).db.getUser ui.sub = some u ∧
      1 ≤ (get_and_update_user hh hm be db ui).saves := by
  rw [guu_existing hh hm be db ui a fid lt hfind hmatch]
  unfold existing_user_step finish_existing
  dsimp only
  rw [hhicn, hfhir, hstored, hnew]
  by_cases hc : a.crosswalk.user_id_type = lt
  · simp only [hc, ne_eq, not_true_eq_false, if_false]
    refine ⟨_, rfl, rfl, ?_, le_refl 1⟩
    exact getUser_updateUser db ui.sub a _ hfind rfl
  · simp only [ne_eq, not_true_eq_false, if_false]
    rw [if_pos hc]
    refine ⟨_, rfl, rfl, ?_, Nat.le_add_left 1 1⟩
    exact getUser_updateUser _ ui.sub _ _ (getUser_updateUser db ui.sub a _ hfind rfl) rfl

/-- C6, witnessed: a store whose `sub1` account has no mbi hash, reconciled
with raw mbi `1a`, ends up carrying mbi hash `1A`. -/
theorem C6_backfill_witness :
    ∃ u, (get_and_update_user (hashConst "HH1") id exBackendSingle (exDbWith none)
        exUiWithMbi).outcome = CbOutcome.ok u ∧
      u.crosswalk.user_mbi_hash = some "1A" ∧
      (get_and_update_user (hashConst "HH1") id exBackendSingle (exDbWith none)
        exUiWithMbi).db.getUser exUiWithMbi.sub = some u ∧
      1 ≤ (get_and_update_user (hashConst "HH1") id exBackendSingle (exDbWith none)
        exUiWithMbi).saves :=
  C6_backfill (hashConst "HH1") id exBackendSingle (exDbWith none) exUiWithMbi
    (exAcctWith none) "f1" "M" "1A" (by decide) (by decide) (by decide) (by decide)
    (by decide) (by decide)

/-! ## Claim C4 -/

/-- C4: with valid inputs (non-empty username, 64-char hicn hash, 64-char mbi
hash when present, non-empty fhir_id), `create_beneficiary_record` raises
`ValidationError` naming the specific colliding field exactly when one of the
four uniqueness axes is already taken — checked in order username, hicn hash,
mbi hash (only when one is supplied), fhir_id — and otherwise creates and
returns the new account. -/
theorem C4_duplicates (db : DB) (u h f : String) (mh : Option String)
    (fn ln em uid : String)
    (hu : u ≠ "") (hh64 : h.length = 64)
    (hmh : ∀ m, mh = some m → m.length = 64) (hf : f ≠ "") :
    (create_beneficiary_record db (some u) (some h) mh (some f) fn ln em uid).outcome =
      (if db.usernameExists u then
        CbOutcome.error (CbError.validationError "user already exists")
      else if db.hicnHashExists h then
        CbOutcome.error (CbError.validationError "user_hicn_hash already exists")
      else if (match mh with | some m => db.mbiHashExists m | none => false) then
        CbOutcome.error (CbError.validationError "user_mbi_hash already exists")
      else if db.fhirIdExists f then
        CbOutcome.error (CbError.validationError "fhir_id already exists")
      else CbOutcome.ok ⟨u, fn, ln, em, ⟨h, mh, f, uid⟩⟩) := by
  have hfb : (f != "") = true := by
    simp [hf]
  unfold create_beneficiary_record
  cases mh with
  | none =>
    simp [hu, hf, hh64, hfb]
    split_ifs <;> rfl
  | some m =>
    have hm64 : m.length = 64 := hmh m rfl
    simp [hu, hf, hh64, hm64, hfb]
    split_ifs <;> rfl


/-- C4, witnessed: creating against a store that already owns the username
`sub1` fails with the `ValidationError` naming the username axis. -/
theorem C4_duplicates_witness :
    (create_beneficiary_record (exDbWith none) (some "sub1") (some h64) none
      (some "f2") "" "" "" "H").outcome =
      CbOutcome.error (CbError.validationError "user already exists") :=
  (C4_duplicates (exDbWith none) "sub1" h64 "f2" none "" "" "" "H"
    (by decide) (by decide) (by intro m hm; cases hm) (by decide)).trans (by decide)

/-! ## Claim C8 -/

/-- Every message of the pre-assert logging block ends up in the logs of
`create_beneficiary_record`, whichever branch the call takes afterwards. -/
theorem mem_logs_pre (db : DB)
    (username user_hicn_hash user_mbi_hash fhir_id : Option String)
    (fn ln em uid : String) (m : String)
    (hm : m ∈ create_precondition_logs username user_hicn_hash user_mbi_hash fhir_id) :
    m ∈ (create_beneficiary_record db username user_hicn_hash user_mbi_hash fhir_id
      fn ln em uid).logs := by
  unfold create_beneficiary_record
  dsimp only
  repeat' split
  all_goals
    first
      | exact hm
      | exact List.mem_append_left _ hm


/-- C8: every violated precondition is logged with its specific message, and
any violation makes `create_beneficiary_record` fail with `AssertionError`
with the store left untouched (no account, crosswalk or profile row written). -/
theorem C8_preconditions (db : DB)
    (username user_hicn_hash user_mbi_hash fhir_id : Option String)
    (fn ln em uid : String) :
    (username = none → "username can not be None" ∈
      (create_beneficiary_record db username user_hicn_hash user_mbi_hash fhir_id
        fn ln em uid).logs) ∧
    (username = some "" → "username can not be an empty string" ∈
      (create_beneficiary_record db username user_hicn_hash user_mbi_hash fhir_id
        fn ln em uid).logs) ∧
    (user_hicn_hash = none → "user_hicn_hash can not be None" ∈
      (create_beneficiary_record db username user_hicn_hash user_mbi_hash fhir_id
        fn ln em uid).logs) ∧
    (∀ s, user_hicn_hash = some s → s.length ≠ 64 → "incorrect user HICN hash format" ∈
      (create_beneficiary_record db username user_hicn_hash user_mbi_hash fhir_id
        fn ln em uid).logs) ∧
    (∀ m, user_mbi_hash = some m → m.length ≠ 64 → "incorrect user MBI hash format" ∈
      (create_beneficiary_record db username user_hicn_hash user_mbi_hash fhir_id
        fn ln em uid).logs) ∧
    (fhir_id = none → "fhir_id can not be None" ∈
      (create_beneficiary_record db username user_hicn_hash user_mbi_hash fhir_id
        fn ln em uid).logs) ∧
    (fhir_id = some "" → "fhir_id can not be an empty string" ∈
      (create_beneficiary_record db username user_hicn_hash user_mbi_hash fhir_id
        fn ln em uid).logs) ∧
    (create_precondition_violated username user_hicn_hash user_mbi_hash fhir_id = true →
      (∃ m, (create_beneficiary_record db username user_hicn_hash user_mbi_hash fhir_id
        fn ln em uid).outcome = CbOutcome.error (CbError.assertionError m)) ∧
      (create_beneficiary_record db username user_hicn_hash user_mbi_hash fhir_id
        fn ln em uid).db = db) := by
  refine ⟨?_, ?_, ?_, ?_, ?_, ?_, ?_, ?_⟩
  · intro hn
    subst hn
    exact mem_logs_pre _ _ _ _ _ _ _ _ _ _ (by simp [create_precondition_logs])
  · intro hn
    subst hn
    exact mem_logs_pre _ _ _ _ _ _ _ _ _ _ (by simp [create_precondition_logs])
  · intro hn
    subst hn
    exact mem_logs_pre _ _ _ _ _ _ _ _ _ _ (by simp [create_precondition_logs])
  · intro s hs hl
    subst hs
    exact mem_logs_pre _ _ _ _ _ _ _ _ _ _ (by simp [create_precondition_logs, hl])
  · intro m hm hl
    subst hm
    exact mem_logs_pre _ _ _ _ _ _ _ _ _ _ (by simp [create_precondition_logs, hl])
  · intro hn
    subst hn
    exact mem_logs_pre _ _ _ _ _ _ _ _ _ _ (by simp [create_precondition_logs])
  · intro hn
    subst hn
    exact mem_logs_pre _ _ _ _ _ _ _ _ _ _ (by simp [create_precondition_logs])
  · intro hviol
    unfold create_beneficiary_record
    dsimp only
    rcases username with _ | u
    · exact ⟨⟨"", rfl⟩, rfl⟩
    · dsimp only
      by_cases hu : u = ""
      · rw [if_pos hu]
        exact ⟨⟨"", rfl⟩, rfl⟩
      · rw [if_neg hu]
        rcases user_hicn_hash with _ | s
        · exact ⟨⟨"", rfl⟩, rfl⟩
        · dsimp only
          by_cases hs : s.length = 64
          · rw [if_neg (by omega)]
            rcases user_mbi_hash with _ | m
            · dsimp only
              rw [if_neg (by simp)]
              rcases fhir_id with _ | f
              · exact ⟨⟨"", rfl⟩, rfl⟩
              · dsimp only
                by_cases hf : f = ""
                · rw [if_pos hf]
                  exact ⟨⟨"", rfl⟩, rfl⟩
                · exfalso
                  simp [create_precondition_violated, hu, hs, hf] at hviol
            · dsimp only
              by_cases hm : m.length = 64
              · rw [if_neg (by simp [hm])]
                rcases fhir_id with _ | f
                · exact ⟨⟨"", rfl⟩, rfl⟩
                · dsimp only
                  by_cases hf : f = ""
                  · rw [if_pos hf]
                    exact ⟨⟨"", rfl⟩, rfl⟩
                  · exfalso
                    simp [create_precondition_violated, hu, hs, hm, hf] at hviol
              · rw [if_pos (by simp [hm])]
                exact ⟨⟨"incorrect user MBI hash format", rfl⟩, rfl⟩
          · rw [if_pos hs]
            exact ⟨⟨"incorrect user HICN hash format", rfl⟩, rfl⟩

/-- C8, witnessed: a None username is logged and fails the creation with no
store write. -/
theorem C8_preconditions_witness :
    "username can not be None" ∈
      (create_beneficiary_record (exDbWith none) none (some h64) none (some "f2")
        "" "" "" "H").logs ∧
    (∃ m, (create_beneficiary_record (exDbWith none) none (some h64) none (some "f2")
      "" "" "" "H").outcome = CbOutcome.error (CbError.assertionError m)) ∧
    (create_beneficiary_record (exDbWith none) none (some h64) none (some "f2")
      "" "" "" "H").db = exDbWith none :=
  have h := C8_preconditions (exDbWith none) none (some h64) none (some "f2") "" "" "" "H"
  ⟨h.1 rfl, (h.2.2.2.2.2.2.2 (by decide)).1, (h.2.2.2.2.2.2.2 (by decide)).2⟩

/-! ## Claim C9 -/

/-- The existing-account branch reports exactly the lookup trace it was
given. -/
theorem existing_user_step_lookups (db : DB) (user : Account) (hicn_hash : String)
    (mbi_hash : Option String) (fid lt : String) (L : List HashKind) :
    (existing_user_step db user hicn_hash mbi_hash fid lt L).lookups = L := by
  unfold existing_user_step finish_existing
  dsimp only
  repeat' split
  all_goals rfl

/-- The function `get_and_update_user` performs exactly the lookups of its inner
`match_backend_patient_identifier` call. -/
theorem guu_lookups (hh hm : String → String) (be : HashKind → String → FhirBundle)
    (db : DB) (ui : UserInfo) :
    (get_and_update_user hh hm be db ui).lookups =
      (match_backend_patient_identifier be (mbi_hash_of hm ui) (hh ui.hicn)).lookups := by
  unfold get_and_update_user
  dsimp only
  repeat' split
  all_goals first
    | rfl
    | apply existing_user_step_lookups

/-- C9: an empty-string raw mbi is normalized to None before hashing — the
result does not depend on the mbi digest function at all (the empty string is
never hashed) and no mbi-based directory lookup is performed. -/
theorem C9_empty_mbi (hh hm1 hm2 : String → String) (be : HashKind → String → FhirBundle)
    (db : DB) (ui : UserInfo) (hmbi : ui.mbi = "") :
    normalized_mbi ui = none ∧
    get_and_update_user hh hm1 be db ui = get_and_update_user hh hm2 be db ui ∧
    HashKind.M ∉ (get_and_update_user hh hm1 be db ui).lookups := by
  have hn : normalized_mbi ui = none := by
    unfold normalized_mbi
    rw [hmbi]
    rfl
  have hmo : ∀ hmx : String → String, mbi_hash_of hmx ui = none := fun hmx => by
    unfold mbi_hash_of
    rw [hn]
    rfl
  refine ⟨hn, ?_, ?_⟩
  · unfold get_and_update_user
    rw [hmo hm1, hmo hm2]
  · rw [guu_lookups, hmo hm1]
    show HashKind.M ∉ [HashKind.H]
    decide

/-- C9, witnessed with two different digest stand-ins on an empty mbi. -/
theorem C9_empty_mbi_witness :
    get_and_update_user (hashConst "HH1") id exBackendSingle (exDbWith none) exUiNoMbi =
      get_and_update_user (hashConst "HH1") (hashConst "ZZ") exBackendSingle
        (exDbWith none) exUiNoMbi ∧
    HashKind.M ∉ (get_and_update_user (hashConst "HH1") id exBackendSingle
      (exDbWith none) exUiNoMbi).lookups :=
  have h := C9_empty_mbi (hashConst "HH1") id (hashConst "ZZ") exBackendSingle
    (exDbWith none) exUiNoMbi rfl
  ⟨h.2.1, h.2.2⟩

/-! ## Claim C10 -/

/-- C10: the raw mbi is upper-cased before hashing, so two identity responses
that agree on every field except the letter case of the mbi produce the same
hash, the same resolution and the same reconciliation result. -/
theorem C10_mbi_case_insensitive (hh hm : String → String)
    (be : HashKind → String → FhirBundle) (db : DB) (ui1 ui2 : UserInfo)
    (hsub : ui1.sub = ui2.sub) (hhicn : ui1.hicn = ui2.hicn)
    (hup : pyUpper ui1.mbi = pyUpper ui2.mbi)
    (hg : ui1.given_name = ui2.given_name) (hf : ui1.family_name = ui2.family_name)
    (he : ui1.email = ui2.email) :
    get_and_update_user hh hm be db ui1 = get_and_update_user hh hm be db ui2 := by
  obtain ⟨s1, h1, m1, g1, f1, e1⟩ := ui1
  obtain ⟨s2, h2, m2, g2, f2, e2⟩ := ui2
  dsimp only at hsub hhicn hup hg hf he
  subst hsub
  subst hhicn
  subst hg
  subst hf
  subst he
  unfold get_and_update_user mbi_hash_of normalized_mbi
  dsimp only
  rw [hup]

/-- C10, witnessed: raw mbi `1a` and raw mbi `1A` reconcile identically. -/
theorem C10_mbi_case_insensitive_witness :
    get_and_update_user (hashConst "HH1") id exBackendSingle (exDbWith none)
      ⟨"sub1", "h", "1a", none, none, none⟩ =
    get_and_update_user (hashConst "HH1") id exBackendSingle (exDbWith none)
      ⟨"sub1", "h", "1A", none, none, none⟩ :=
  C10_mbi_case_insensitive (hashConst "HH1") id exBackendSingle (exDbWith none)
    ⟨"sub1", "h", "1a", none, none, none⟩ ⟨"sub1", "h", "1A", none, none, none⟩
    rfl rfl (by decide) rfl rfl rfl

end BlueButton
